import Mathlib

/-!
Shallow embedding of the directive-compilation front-end of minijail0
(`minijail0.c`): the libc numeric parsers it relies on (`strtod` on decimal
subject sequences, `strtoull` in base 16), the identity-resolution helpers
(`set_user`, `set_group`, `build_idmap`, `set_ugid_mapping`), the option
loop and cross-directive constraint checks of `parse_args`, and the launch
strategy selection of `main`.  External collaborators (the jail-control
library, the user database, the ELF prober, `dlopen`) are parameters of an
`Env` record; their calls that can only fail for OS reasons are modelled as
succeeding, while every failure path decided by this file's own logic is an
`Except.error` carrying the (apostrophe-free rendering of the) diagnostic
message the C code prints before `exit(1)`.
-/

namespace Minijail

/-- Error: the diagnostic message printed before `exit(1)`. -/
abbrev Err := String

/-- Decidable equality for `Except`, so that concrete runs of the model can
be settled by `decide`. -/
def exceptDecEq {ε α : Type} [DecidableEq ε] [DecidableEq α] :
    (a b : Except ε α) → Decidable (a = b)
  | .error e1, .error e2 =>
    if h : e1 = e2 then .isTrue (by rw [h])
    else .isFalse (by intro hc; cases hc; exact h rfl)
  | .error _, .ok _ => .isFalse (by intro hc; cases hc)
  | .ok _, .error _ => .isFalse (by intro hc; cases hc)
  | .ok a, .ok b =>
    if h : a = b then .isTrue (by rw [h])
    else .isFalse (by intro hc; cases hc; exact h rfl)

instance {ε α : Type} [DecidableEq ε] [DecidableEq α] : DecidableEq (Except ε α) :=
  exceptDecEq

/-! ### Model of C `strtod` on decimal subject sequences

`set_user` / `set_group` call `strtod(arg, &end)` and accept the argument as
numeric iff the whole string was consumed.  We model the decimal form of the
subject sequence: optional whitespace, optional sign, digits with an optional
fractional part, and an optional decimal exponent.  (Hexadecimal floats and
the `inf`/`nan` forms of C `strtod` are outside the model; the value is kept
in exact integer components, so the truncation to `int` performed by the C
code is computed exactly rather than through double rounding, which agrees
with the C program on all values small enough to be exact doubles.)
If no digit is found, no conversion is performed and `end` is the original
pointer, i.e. `rest` is the whole input including any whitespace and sign. -/
structure StrtodResult where
  neg : Bool
  ipart : Nat
  fpart : Nat
  fdigits : Nat
  exp : Int
  converted : Bool
  rest : List Char
  deriving Repr, DecidableEq

def isSpaceC (c : Char) : Bool :=
  c = ' ' || c = '\t' || c = '\n' || c = '\x0b' || c = '\x0c' || c = '\r'

def digitsToNat (cs : List Char) : Nat :=
  cs.foldl (fun a c => a * 10 + (c.toNat - '0'.toNat)) 0

def spanDigits (cs : List Char) : List Char × List Char :=
  (cs.takeWhile Char.isDigit, cs.dropWhile Char.isDigit)

def splitSign (cs : List Char) : Bool × List Char :=
  match cs with
  | '-' :: t => (true, t)
  | '+' :: t => (false, t)
  | _ => (false, cs)

def strtod (s : List Char) : StrtodResult :=
  let cs1 := s.dropWhile isSpaceC
  let (neg, cs2) := splitSign cs1
  let (ids, cs3) := spanDigits cs2
  let (fds, cs4) :=
    match cs3 with
    | '.' :: t => spanDigits t
    | _ => ([], cs3)
  if ids = [] ∧ fds = [] then
    -- no conversion performed: end = nptr
    ⟨false, 0, 0, 0, 0, false, s⟩
  else
    let (e, cs5) :=
      match cs4 with
      | c :: t =>
        if c = 'e' ∨ c = 'E' then
          let (es, t2) := splitSign t
          let (eds, t3) := spanDigits t2
          if eds = [] then ((0 : Int), cs4)
          else ((if es then -(digitsToNat eds : Int) else (digitsToNat eds : Int)), t3)
        else ((0 : Int), cs4)
      | [] => ((0 : Int), cs4)
    ⟨neg, digitsToNat ids, digitsToNat fds, fds.length, e, true, cs5⟩

/-- Truncation toward zero of the parsed value, as the C conversion of the
`double` returned by `strtod` to `int` does.  The value is
`± (ipart + fpart / 10^fdigits) · 10^exp`; its truncated magnitude is an
exact integer computation. -/
def strtodTruncInt (r : StrtodResult) : Int :=
  let scaled := r.ipart * 10 ^ r.fdigits + r.fpart
  let mag : Nat :=
    if r.fdigits ≤ r.exp then scaled * 10 ^ (r.exp - r.fdigits).toNat
    else scaled / 10 ^ ((r.fdigits : Int) - r.exp).toNat
  if r.neg then -(mag : Int) else (mag : Int)

/-- Conversion of the C `int` to `uid_t`/`gid_t` (unsigned 32-bit). -/
def toId32 (n : Int) : Nat := (n % (2 ^ 32)).toNat

/-- Outcome of the numeric test at the top of `set_user`/`set_group`:
either the specifier parsed entirely as a number (name lookup skipped),
or the name-lookup path is taken. -/
inductive IdResolution where
  | numeric (n : Int)
  | byName (name : String)
  deriving Repr, DecidableEq

/-- `set_user`, decision part: `int uid = strtod(arg, &end); if (!*end && *arg)`
takes the numeric path, otherwise `lookup_user` is consulted. -/
def set_user (arg : String) : IdResolution :=
  let r := strtod arg.data
  if r.rest = [] ∧ arg ≠ "" then .numeric (strtodTruncInt r) else .byName arg

/-- `set_group`, decision part: same numeric test as `set_user`. -/
def set_group (arg : String) : IdResolution :=
  let r := strtod arg.data
  if r.rest = [] ∧ arg ≠ "" then .numeric (strtodTruncInt r) else .byName arg

/-! ### Model of C `strtoull(arg, &end, 16)`

Optional whitespace, optional sign, optional `0x`/`0X` prefix, hexadecimal
digits.  If the prefix `0x` is not followed by a hexadecimal digit, only the
`0` is consumed.  If no digit at all is consumed, no conversion is performed
and `end` is the original pointer.  On overflow the result saturates at
`ULLONG_MAX`; a minus sign negates the value modulo `2^64`. -/

def hexVal (c : Char) : Nat :=
  if '0' ≤ c ∧ c ≤ '9' then c.toNat - '0'.toNat
  else if 'a' ≤ c ∧ c ≤ 'f' then c.toNat - 'a'.toNat + 10
  else if 'A' ≤ c ∧ c ≤ 'F' then c.toNat - 'A'.toNat + 10
  else 0

def isHexD (c : Char) : Bool :=
  ('0' ≤ c && c ≤ '9') || ('a' ≤ c && c ≤ 'f') || ('A' ≤ c && c ≤ 'F')

def hexDigitsToNat (cs : List Char) : Nat :=
  cs.foldl (fun a c => a * 16 + hexVal c) 0

/-- Returns the parsed `unsigned long long` value and the unconsumed rest of
the string (what `*end` points at). -/
def strtoull16 (s : List Char) : Nat × List Char :=
  let cs1 := s.dropWhile isSpaceC
  let (neg, cs2) := splitSign cs1
  let (ds, rest) :=
    match cs2 with
    | '0' :: x :: t =>
      if (x = 'x' ∨ x = 'X') then
        if t.takeWhile isHexD = [] then ([('0' : Char)], x :: t)
        else (t.takeWhile isHexD, t.dropWhile isHexD)
      else (cs2.takeWhile isHexD, cs2.dropWhile isHexD)
    | _ => (cs2.takeWhile isHexD, cs2.dropWhile isHexD)
  if ds = [] then (0, s)
  else
    let v := hexDigitsToNat ds
    let v := if v ≥ 2 ^ 64 then 2 ^ 64 - 1 else if neg then (2 ^ 64 - v) % 2 ^ 64 else v
    (v, rest)

/-- `use_caps`: parse the capability mask in base 16; any unconsumed trailing
character is a fatal parse error. -/
def use_caps (arg : String) : Except Err Nat :=
  let r := strtoull16 arg.data
  if r.2 ≠ [] then .error "Invalid cap set" else .ok r.1

/-- `skip_securebits`: parse the securebits skip mask in base 16; any
unconsumed trailing character is a fatal parse error. -/
def skip_securebits (arg : String) : Except Err Nat :=
  let r := strtoull16 arg.data
  if r.2 ≠ [] then .error "Invalid securebit mask" else .ok r.1

/-! ### The directive set and the option loop of `parse_args` -/

/-- `ElfType` of `elfparse.h` as used by `parse_args`/`main`. -/
inductive ElfType where
  | ELFERROR
  | ELFSTATIC
  | ELFDYNAMIC
  deriving Repr, DecidableEq

/-- One occurrence of a command-line option handled by the `getopt` loop of
`parse_args` (restricted to the options the verified claims are about). -/
inductive Directive where
  | userD (arg : String)           -- -u
  | groupD (arg : String)          -- -g
  | capsD (arg : String)           -- -c
  | securebitsD (arg : String)     -- -B
  | bindD (arg : String)           -- -b
  | chrootD (path : String)        -- -C
  | pivotD (path : String)         -- -P
  | mountNsD                       -- -v
  | skipRemountD                   -- -K
  | mountDevD                      -- -d
  | uidmapD (arg : Option String)  -- -m, optional map argument
  | gidmapD (arg : Option String)  -- -M, optional map argument
  | userNsD                        -- -U
  | pidNsD                         -- -p
  | elfTypeD (arg : String)        -- -T
  | ambientD                       -- --ambient
  deriving Repr, DecidableEq

/-- The local state of `parse_args` (its stack variables) together with the
fields of the jail object `j` that the modelled `minijail_*` calls set. -/
structure St where
  uid : Nat
  gid : Nat
  uidmapArg : Option String
  gidmapArg : Option String
  setUidmap : Bool
  setGidmap : Bool
  binding : Bool
  chroot : Bool
  pivotRoot : Bool
  mountNs : Bool
  skipRemount : Bool
  caps : Bool
  ambientCaps : Bool
  elfOverride : ElfType
  -- modelled fields of the jail object
  vfsNs : Bool          -- minijail_namespace_vfs was called
  nsUser : Bool         -- minijail_namespace_user was called
  nsPids : Bool         -- minijail_namespace_pids was called
  capsVal : Nat         -- minijail_use_caps mask
  securebitsSkipVal : Nat
  jailAmbient : Bool    -- minijail_set_ambient_caps was called
  mountDev : Bool       -- minijail_mount_dev was called
  deriving Repr, DecidableEq

/-- Initial state: `parse_args` locals start zeroed, `uid = 0`, `gid = 0`,
maps `NULL`, `*elftype = ELFERROR` (set in `main`). -/
def initSt : St :=
  ⟨0, 0, none, none, false, false, false, false, false, false, false, false,
   false, .ELFERROR, false, false, false, 0, 0, false, false⟩

/-- External collaborators: OS facts and lookups the program consults. -/
structure Env where
  callerUid : Nat                            -- getuid()
  callerGid : Nat                            -- getgid()
  capSetgid : Bool                           -- has_cap_setgid()
  lookupUser : String → Option (Nat × Nat)   -- lookup_user
  lookupGroup : String → Option Nat          -- lookup_group
  probe : ElfType                            -- get_elf_linkage on the target
  accessOk : Bool                            -- access(program, X_OK) == 0
  hasProgram : Bool                          -- argc > optind
  dlopenOk : Bool                            -- dlopen(PRELOADPATH, ...) succeeds

/-- Splitting a character list at commas (the delimiter set of the `strtok`
calls in `add_binding`). -/
def splitComma : List Char → List Char → List (List Char)
  | [], acc => [acc.reverse]
  | ',' :: t, acc => acc.reverse :: splitComma t []
  | c :: t, acc => splitComma t (c :: acc)

/-- The `strtok` tokenisation used by `add_binding`: the nonempty pieces
between commas, in order. -/
def strtokSplit (arg : String) : List (List Char) :=
  (splitComma arg.data []).filter (fun t => t ≠ [])

/-- `add_binding`: needs at least src and dest tokens; the `minijail_bind`
call itself is an external collaborator modelled as succeeding. -/
def add_binding (arg : String) : Except Err Unit :=
  if (strtokSplit arg).length < 2 then .error "Bad binding" else .ok ()

/-- One iteration of the `getopt` switch in `parse_args`. -/
def applyDirective (env : Env) (fl : St) : Directive → Except Err St
  | .userD arg =>
    match set_user arg with
    | .numeric n => .ok { fl with uid := toId32 n }
    | .byName name =>
      match env.lookupUser name with
      | none => .error "Bad user"
      | some (u, g) => .ok { fl with uid := u, gid := g }
  | .groupD arg =>
    match set_group arg with
    | .numeric n => .ok { fl with gid := toId32 n }
    | .byName name =>
      match env.lookupGroup name with
      | none => .error "Bad group"
      | some g => .ok { fl with gid := g }
  | .capsD arg =>
    match use_caps arg with
    | .error e => .error e
    | .ok v => .ok { fl with caps := true, capsVal := v }
  | .securebitsD arg =>
    match skip_securebits arg with
    | .error e => .error e
    | .ok v => .ok { fl with securebitsSkipVal := v }
  | .bindD arg =>
    match add_binding arg with
    | .error e => .error e
    | .ok _ => .ok { fl with binding := true }
  | .chrootD _ =>
    if fl.pivotRoot then .error "Could not set chroot because -P was specified"
    else .ok { fl with chroot := true }
  | .pivotD _ =>
    if fl.chroot then .error "Could not set pivot_root because -C was specified"
    else .ok { fl with pivotRoot := true, vfsNs := true }
  | .mountNsD => .ok { fl with mountNs := true, vfsNs := true }
  | .skipRemountD => .ok { fl with skipRemount := true }
  | .mountDevD => .ok { fl with vfsNs := true, mountDev := true }
  | .uidmapD a => .ok { fl with setUidmap := true, uidmapArg := a }
  | .gidmapD a => .ok { fl with setGidmap := true, gidmapArg := a }
  | .userNsD => .ok { fl with nsUser := true, nsPids := true }
  | .pidNsD => .ok { fl with nsPids := true }
  | .elfTypeD arg =>
    if arg = "static" then .ok { fl with elfOverride := .ELFSTATIC }
    else if arg = "dynamic" then .ok { fl with elfOverride := .ELFDYNAMIC }
    else .error "ELF type must be static or dynamic"
  | .ambientD => .ok { fl with ambientCaps := true, jailAmbient := true }

/-- The whole `getopt` loop: fold `applyDirective` over the option
occurrences in command-line order, stopping at the first fatal error. -/
def parseLoop (env : Env) (fl : St) : List Directive → Except Err St
  | [] => .ok fl
  | d :: ds =>
    match applyDirective env fl d with
    | .ok fl' => parseLoop env fl' ds
    | .error e => .error e

/-! ### Identity mapping (`build_idmap`, `has_cap_setgid`, `set_ugid_mapping`) -/

/-- `printf %d` interpretation of a 32-bit unsigned id passed as `int`. -/
def intOfId (n : Nat) : Int :=
  if n < 2 ^ 31 then (n : Int) else (n : Int) - 2 ^ 32

/-- The `"%d %d 1"` rendering produced by the `snprintf` in `build_idmap`:
target id, lower (caller) id, count one. -/
def idmapStr (id lowerid : Nat) : String :=
  toString (intOfId id) ++ " " ++ toString (intOfId lowerid) ++ " 1"

/-- `build_idmap`: `snprintf(idmap, 32, "%d %d 1", id, lowerid)`; a result
that would not fit in the 32-byte buffer is a fatal error. -/
def build_idmap (id lowerid : Nat) : Except Err String :=
  if 32 ≤ (idmapStr id lowerid).length then .error "Could not build id map"
  else .ok (idmapStr id lowerid)

/-- Calls issued to the jail object by `set_ugid_mapping`, in order. -/
inductive JailCall where
  | namespaceUser
  | namespacePids
  | uidmapCall (map : String)
  | disableSetgroups
  | gidmapCall (map : String)
  deriving Repr, DecidableEq

/-- The uid map actually applied by the `set_uidmap` block: the explicit
`-m` argument when one was given, the synthesized default otherwise. -/
def uidmapChoice (env : Env) (fl : St) : Except Err String :=
  match fl.uidmapArg with
  | some m => .ok m
  | none => build_idmap fl.uid env.callerUid

/-- The gid map actually applied by the `set_gidmap` block. -/
def gidmapChoice (env : Env) (fl : St) : Except Err String :=
  match fl.gidmapArg with
  | some m => .ok m
  | none => build_idmap fl.gid env.callerGid

/-- Jail calls made by the `set_uidmap` block of `set_ugid_mapping`. -/
def uidCalls (env : Env) (fl : St) : Except Err (List JailCall) :=
  if fl.setUidmap then
    match uidmapChoice env fl with
    | .error e => .error e
    | .ok m => .ok [JailCall.namespaceUser, JailCall.namespacePids, JailCall.uidmapCall m]
  else .ok []

/-- Jail calls made by the `set_gidmap` block of `set_ugid_mapping`:
`has_cap_setgid()` (here `env.capSetgid`) decides whether
`minijail_namespace_user_disable_setgroups` is called before the gid map is
set. -/
def gidCalls (env : Env) (fl : St) : Except Err (List JailCall) :=
  if fl.setGidmap then
    match gidmapChoice env fl with
    | .error e => .error e
    | .ok m =>
      .ok ([JailCall.namespaceUser, JailCall.namespacePids]
        ++ (if env.capSetgid then [] else [JailCall.disableSetgroups])
        ++ [JailCall.gidmapCall m])
  else .ok []

/-- `set_ugid_mapping`: the ordered trace of jail calls it makes.
`minijail_uidmap`/`minijail_gidmap` failures are external and modelled as
success. -/
def set_ugid_mapping (env : Env) (fl : St) : Except Err (List JailCall) :=
  match uidCalls env fl with
  | .error e => .error e
  | .ok u =>
    match gidCalls env fl with
    | .error e => .error e
    | .ok g => .ok (u ++ g)

/-! ### The cross-directive constraint checks after the option loop -/

def ambientMsg : Err :=
  "Cannot set ambient capabilities (--ambient) without actually using capabilities (-c)"

def bindMsg : Err :=
  "Bind mounts require a chroot, pivot_root, or new mount namespace"

def skipRemountMsg : Err :=
  "Cannot skip marking mounts as MS_PRIVATE without mount namespaces"

def capsStaticMsg : Err :=
  "Cannot run statically-linked binaries with capabilities (-c) without also setting ambient capabilities"

/-- Check at line 622: ambient caps require `-c`. -/
def ambientCheck (fl : St) : Except Err Unit :=
  if fl.ambientCaps && !fl.caps then .error ambientMsg else .ok ()

/-- Check at line 636: bind mounts require chroot, pivot_root or `-v`. -/
def bindingCheck (fl : St) : Except Err Unit :=
  if fl.binding && !(fl.chroot || fl.pivotRoot || fl.mountNs) then .error bindMsg
  else .ok ()

/-- Check at line 646: `-K` requires the `-v` flag (the local `mount_ns`). -/
def skipRemountCheck (fl : St) : Except Err Unit :=
  if fl.skipRemount && !fl.mountNs then .error skipRemountMsg else .ok ()

/-- The three cross-directive checks, in source order. -/
def postChecks (fl : St) : Except Err Unit :=
  match ambientCheck fl with
  | .error e => .error e
  | .ok _ =>
    match bindingCheck fl with
    | .error e => .error e
    | .ok _ => skipRemountCheck fl

/-- Lines 670–689: if `-T` was given its override is used and the binary is
never probed; otherwise the target must be accessible and is classified by
`get_elf_linkage`. -/
def resolveElf (env : Env) (fl : St) : Except Err ElfType :=
  if fl.elfOverride ≠ .ELFERROR then .ok fl.elfOverride
  else if !env.accessOk then .error "Target program is not accessible"
  else .ok env.probe

/-- Check at line 696: capability restriction on a statically linked target
without ambient capabilities is refused. -/
def capsStaticCheck (fl : St) (elf : ElfType) : Except Err Unit :=
  if fl.caps && (elf = .ELFSTATIC) && !fl.ambientCaps then .error capsStaticMsg
  else .ok ()

/-- The execution strategies of `main`. -/
inductive Strategy where
  | directExec   -- minijail_run_no_preload
  | preloadExec  -- minijail_run after a successful dlopen of the preload
  deriving Repr, DecidableEq

/-- The strategy selection of `main` (lines 733–757): a static target runs
without preload; a dynamic target requires the preload shim to be loadable
in the current process and then runs with preload; an invalid ELF is
refused. -/
def selectStrategy (env : Env) (elf : ElfType) : Except Err Strategy :=
  match elf with
  | .ELFSTATIC => .ok .directExec
  | .ELFDYNAMIC =>
    if env.dlopenOk then .ok .preloadExec else .error "dlopen failed"
  | .ELFERROR => .error "Target program is not a valid ELF file"

/-- Guarded call to `set_ugid_mapping` at line 616. -/
def ugidStage (env : Env) (fl : St) : Except Err (List JailCall) :=
  if fl.setUidmap || fl.setGidmap then set_ugid_mapping env fl else .ok []

/-- The whole front end: option loop, uid/gid mapping, cross-directive
checks, program presence, linkage classification, the caps/static check of
`parse_args`, and the strategy selection of `main`.  An `Except.error` is a
refusal to launch (exit 1). -/
def pipeline (env : Env) (ds : List Directive) : Except Err Strategy :=
  match parseLoop env initSt ds with
  | .error e => .error e
  | .ok fl =>
    match ugidStage env fl with
    | .error e => .error e
    | .ok _ =>
      match postChecks fl with
      | .error e => .error e
      | .ok _ =>
        if !env.hasProgram then .error "usage: missing program"
        else
          match resolveElf env fl with
          | .error e => .error e
          | .ok elf =>
            match capsStaticCheck fl elf with
            | .error e => .error e
            | .ok _ => selectStrategy env elf

/-- Fixture environment for concrete runs: an unprivileged caller with real
uid/gid 1000, no `CAP_SETGID`, an empty user database, a statically linked
target that is accessible, a program argument present, and a loadable
preload shim. -/
def env0 : Env :=
  ⟨1000, 1000, false, fun _ => none, fun _ => none, .ELFSTATIC, true, true, true⟩

/-- Fixture environment whose target probes as dynamically linked. -/
def envDyn : Env := { env0 with probe := .ELFDYNAMIC }

/-! ### Invariants of the option loop -/

def isChrootD : Directive → Bool
  | .chrootD _ => true
  | _ => false

def isPivotD : Directive → Bool
  | .pivotD _ => true
  | _ => false

def isMountNsD : Directive → Bool
  | .mountNsD => true
  | _ => false

def isBindD : Directive → Bool
  | .bindD _ => true
  | _ => false

def isSkipRemountD : Directive → Bool
  | .skipRemountD => true
  | _ => false

def isCapsD : Directive → Bool
  | .capsD _ => true
  | _ => false

def isAmbientD : Directive → Bool
  | .ambientD => true
  | _ => false

/-- Each successful `getopt` iteration accumulates the constraint-relevant
booleans: a flag is set afterwards iff it was set before or the directive is
the one that sets it. -/
theorem applyDirective_flags (env : Env) (d : Directive) {fl₀ fl₁ : St}
    (h : applyDirective env fl₀ d = .ok fl₁) :
    fl₁.chroot = (fl₀.chroot || isChrootD d) ∧
    fl₁.pivotRoot = (fl₀.pivotRoot || isPivotD d) ∧
    fl₁.mountNs = (fl₀.mountNs || isMountNsD d) ∧
    fl₁.binding = (fl₀.binding || isBindD d) ∧
    fl₁.skipRemount = (fl₀.skipRemount || isSkipRemountD d) ∧
    fl₁.caps = (fl₀.caps || isCapsD d) ∧
    fl₁.ambientCaps = (fl₀.ambientCaps || isAmbientD d) := by
  cases d <;>
    simp only [applyDirective] at h <;>
    (repeat' split at h) <;>
    (try injection h with h) <;>
    (try subst h) <;>
    simp_all [isChrootD, isPivotD, isMountNsD, isBindD, isSkipRemountD,
      isCapsD, isAmbientD]

/-- A successful iteration never leaves both the `chroot` and the
`pivot_root` flag set if they were not both set before: the `-C` handler
refuses when `-P` was seen and vice versa. -/
theorem applyDirective_excl (env : Env) (d : Directive) {fl₀ fl₁ : St}
    (h : applyDirective env fl₀ d = .ok fl₁)
    (hx : ¬(fl₀.chroot = true ∧ fl₀.pivotRoot = true)) :
    ¬(fl₁.chroot = true ∧ fl₁.pivotRoot = true) := by
  cases d <;>
    simp only [applyDirective] at h <;>
    (repeat' split at h) <;>
    (try injection h with h) <;>
    (try subst h) <;>
    simp_all

/-- Flag accumulation over the whole option loop: after a successful parse,
each constraint-relevant boolean is set iff some directive in the list sets
it (or it was set initially). -/
theorem parseLoop_flags (env : Env) :
    ∀ (ds : List Directive) (fl₀ fl : St), parseLoop env fl₀ ds = .ok fl →
    fl.chroot = (fl₀.chroot || ds.any isChrootD) ∧
    fl.pivotRoot = (fl₀.pivotRoot || ds.any isPivotD) ∧
    fl.mountNs = (fl₀.mountNs || ds.any isMountNsD) ∧
    fl.binding = (fl₀.binding || ds.any isBindD) ∧
    fl.skipRemount = (fl₀.skipRemount || ds.any isSkipRemountD) ∧
    fl.caps = (fl₀.caps || ds.any isCapsD) ∧
    fl.ambientCaps = (fl₀.ambientCaps || ds.any isAmbientD) := by
  intro ds
  induction ds with
  | nil =>
    intro fl₀ fl h
    simp only [parseLoop] at h
    cases h
    simp
  | cons d ds ih =>
    intro fl₀ fl h
    simp only [parseLoop] at h
    cases heq : applyDirective env fl₀ d with
    | error e => rw [heq] at h; cases h
    | ok fl₁ =>
      rw [heq] at h
      obtain ⟨c1, c2, c3, c4, c5, c6, c7⟩ := applyDirective_flags env d heq
      obtain ⟨l1, l2, l3, l4, l5, l6, l7⟩ := ih fl₁ fl h
      simp [List.any_cons, l1, l2, l3, l4, l5, l6, l7, c1, c2, c3, c4, c5, c6,
        c7, Bool.or_assoc]

/-- After any successful parse starting from a state without the conflict,
the `chroot` and `pivot_root` flags are never both set. -/
theorem parseLoop_excl (env : Env) :
    ∀ (ds : List Directive) (fl₀ fl : St), parseLoop env fl₀ ds = .ok fl →
    ¬(fl₀.chroot = true ∧ fl₀.pivotRoot = true) →
    ¬(fl.chroot = true ∧ fl.pivotRoot = true) := by
  intro ds
  induction ds with
  | nil =>
    intro fl₀ fl h hx
    simp only [parseLoop] at h
    cases h
    exact hx
  | cons d ds ih =>
    intro fl₀ fl h hx
    simp only [parseLoop] at h
    cases heq : applyDirective env fl₀ d with
    | error e => rw [heq] at h; cases h
    | ok fl₁ =>
      rw [heq] at h
      exact ih fl₁ fl h (applyDirective_excl env d heq hx)

/-- The option loop over a concatenation runs the first part, then the
second from the state it reached. -/
theorem parseLoop_append (env : Env) :
    ∀ (ds₁ ds₂ : List Directive) (fl₀ : St),
    parseLoop env fl₀ (ds₁ ++ ds₂) =
      match parseLoop env fl₀ ds₁ with
      | .ok fl₁ => parseLoop env fl₁ ds₂
      | .error e => .error e := by
  intro ds₁
  induction ds₁ with
  | nil => intro ds₂ fl₀; simp [parseLoop]
  | cons d ds ih =>
    intro ds₂ fl₀
    simp only [List.cons_append, parseLoop]
    cases applyDirective env fl₀ d with
    | ok fl₁ => simp [ih]
    | error e => simp

/-- A parse failure makes the whole front end refuse with that error. -/
theorem pipeline_of_parse_error (env : Env) (ds : List Directive) (e : Err)
    (h : parseLoop env initSt ds = .error e) :
    pipeline env ds = .error e := by
  simp [pipeline, h]

/-- The ambient-capabilities check passes iff its condition is false. -/
theorem ambientCheck_ok (fl : St) :
    ambientCheck fl = .ok () ↔ (fl.ambientCaps && !fl.caps) = false := by
  unfold ambientCheck
  split <;> simp_all

/-- The bind-mount check passes iff its condition is false. -/
theorem bindingCheck_ok (fl : St) :
    bindingCheck fl = .ok ()
      ↔ (fl.binding && !(fl.chroot || fl.pivotRoot || fl.mountNs)) = false := by
  unfold bindingCheck
  split <;> simp_all

/-- The skip-remount check passes iff its condition is false. -/
theorem skipRemountCheck_ok (fl : St) :
    skipRemountCheck fl = .ok () ↔ (fl.skipRemount && !fl.mountNs) = false := by
  unfold skipRemountCheck
  split <;> simp_all

/-- The combined validator passes iff each of its three checks passes. -/
theorem postChecks_ok (fl : St) :
    postChecks fl = .ok () ↔
      ambientCheck fl = .ok () ∧ bindingCheck fl = .ok ()
        ∧ skipRemountCheck fl = .ok () := by
  unfold postChecks
  cases h1 : ambientCheck fl <;> cases h2 : bindingCheck fl <;> simp_all

/-! ### The claims -/

/-- Claim C8: resolving the user specifier "1000" never invokes the
identity-lookup collaborator and yields numeric uid 1000; in general any
specifier consumed entirely by the numeric parse is used directly as the
numeric id with name lookup skipped.  The second conjunct runs the `-u`
handler in an environment whose user database is empty — success is only
possible on the lookup-free path. -/
theorem claim_C8 :
    set_user "1000" = .numeric 1000
    ∧ applyDirective env0 initSt (.userD "1000") = .ok { initSt with uid := 1000 }
    ∧ ∀ arg : String, (strtod arg.data).rest = [] → arg ≠ "" →
        set_user arg = .numeric (strtodTruncInt (strtod arg.data)) := by
  refine ⟨by decide, by decide, ?_⟩
  intro arg h1 h2
  simp [set_user, h1, h2]

/-- Witness for C8 at the concrete fully-numeric specifier "1234". -/
theorem claim_C8_witness :
    (strtod "1234".data).rest = [] ∧ "1234" ≠ ""
      ∧ set_user "1234" = .numeric 1234 := by
  refine ⟨by decide, by decide, ?_⟩
  rw [claim_C8.2.2 "1234" (by decide) (by decide)]
  decide

/-- Claim C9: the numeric test in `set_user`/`set_group` is `strtod`, so
specifiers in floating-point syntax such as "1e2" or "2.5" count as fully
numeric, skip name lookup entirely (the fixture database is empty, so the
lookup path could only fail), and yield the value truncated to an integer:
"1e2" resolves to id 100 and "2.5" to id 2. -/
theorem claim_C9 :
    set_user "1e2" = .numeric 100
    ∧ set_user "2.5" = .numeric 2
    ∧ set_group "1e2" = .numeric 100
    ∧ set_group "2.5" = .numeric 2
    ∧ applyDirective env0 initSt (.userD "1e2") = .ok { initSt with uid := 100 }
    ∧ applyDirective env0 initSt (.groupD "2.5") = .ok { initSt with gid := 2 } := by
  decide

/-- Claim C10: an empty argument to `-c` or `-B` is accepted and yields
mask 0 — for `-c` the capability-restriction flag is still set with the
empty capability mask — while a trailing unparsed character is a parse
error, and exactly the inputs `strtoull` does not fully consume are
errors. -/
theorem claim_C10 :
    use_caps "" = .ok 0
    ∧ skip_securebits "" = .ok 0
    ∧ parseLoop env0 initSt [.capsD ""] = .ok { initSt with caps := true, capsVal := 0 }
    ∧ parseLoop env0 initSt [.securebitsD ""] = .ok { initSt with securebitsSkipVal := 0 }
    ∧ use_caps "1g" = .error "Invalid cap set"
    ∧ skip_securebits "0x" = .error "Invalid securebit mask"
    ∧ ∀ arg : String, (∃ e, use_caps arg = .error e) ↔ (strtoull16 arg.data).2 ≠ [] := by
  refine ⟨by decide, by decide, by decide, by decide, by decide, by decide, ?_⟩
  intro arg
  constructor
  · rintro ⟨e, he⟩
    intro hne
    rw [use_caps] at he
    simp [hne] at he
  · intro hne
    exact ⟨"Invalid cap set", by rw [use_caps]; simp [hne]⟩

/-- Claim C6: every directive set containing both a chroot directive and a
pivot-root directive is rejected by the front end, regardless of which of
the two appears first: the option loop cannot complete, since whichever
handler runs second refuses when the other flag is already set. -/
theorem claim_C6 (env : Env) (ds : List Directive)
    (hc : ∃ p, Directive.chrootD p ∈ ds) (hp : ∃ p, Directive.pivotD p ∈ ds) :
    ∃ e, pipeline env ds = .error e := by
  cases hpl : parseLoop env initSt ds with
  | error e => exact ⟨e, pipeline_of_parse_error env ds e hpl⟩
  | ok fl =>
    exfalso
    obtain ⟨p1, hm1⟩ := hc
    obtain ⟨p2, hm2⟩ := hp
    obtain ⟨f1, f2, -⟩ := parseLoop_flags env ds initSt fl hpl
    have hch : fl.chroot = true := by
      rw [f1]
      simp only [initSt, Bool.false_or]
      exact List.any_eq_true.mpr ⟨_, hm1, rfl⟩
    have hpv : fl.pivotRoot = true := by
      rw [f2]
      simp only [initSt, Bool.false_or]
      exact List.any_eq_true.mpr ⟨_, hm2, rfl⟩
    exact parseLoop_excl env ds initSt fl hpl (by simp [initSt]) ⟨hch, hpv⟩

/-- Witness for C6: the concrete set {-C /c, -P /p}. -/
theorem claim_C6_witness :
    ∃ e, pipeline env0 [Directive.chrootD "/c", Directive.pivotD "/p"] = .error e :=
  claim_C6 env0 [Directive.chrootD "/c", Directive.pivotD "/p"]
    ⟨"/c", by decide⟩ ⟨"/p", by decide⟩

/-- Claim C5: a directive set with a bind directive but none of chroot,
pivot-root or the mount-namespace directive fails validation with the
bind-mount constraint violation (assuming the set does not independently
violate the ambient or skip-remount rules), and appending any one of the
three missing directives makes validation succeed.  The hypotheses are on
the accumulated flags, which by `parseLoop_flags` depend only on the set of
directives and not on their order. -/
theorem claim_C5 (env : Env) (ds : List Directive) (fl : St)
    (hpa : parseLoop env initSt ds = .ok fl)
    (hb : fl.binding = true)
    (hc : fl.chroot = false) (hpv : fl.pivotRoot = false) (hm : fl.mountNs = false)
    (ha : ambientCheck fl = .ok ()) (hk : fl.skipRemount = false) :
    postChecks fl = .error bindMsg
    ∧ (∀ p, parseLoop env initSt (ds ++ [Directive.chrootD p])
          = .ok { fl with chroot := true }
        ∧ postChecks { fl with chroot := true } = .ok ())
    ∧ (∀ p, parseLoop env initSt (ds ++ [Directive.pivotD p])
          = .ok { fl with pivotRoot := true, vfsNs := true }
        ∧ postChecks { fl with pivotRoot := true, vfsNs := true } = .ok ())
    ∧ (parseLoop env initSt (ds ++ [Directive.mountNsD])
          = .ok { fl with mountNs := true, vfsNs := true }
        ∧ postChecks { fl with mountNs := true, vfsNs := true } = .ok ()) := by
  have hcond : (fl.ambientCaps && !fl.caps) = false := (ambientCheck_ok fl).mp ha
  have happ : ∀ d : Directive, parseLoop env initSt (ds ++ [d])
      = match applyDirective env fl d with
        | .ok fl' => .ok fl'
        | .error e => .error e := by
    intro d
    rw [parseLoop_append env ds [d] initSt, hpa]
    cases hd : applyDirective env fl d <;> simp [parseLoop, hd]
  refine ⟨?_, ?_, ?_, ?_⟩
  · have hbind : bindingCheck fl = .error bindMsg := by
      simp [bindingCheck, hb, hc, hpv, hm]
    unfold postChecks
    rw [ha, hbind]
  · intro p
    constructor
    · rw [happ (Directive.chrootD p)]
      simp [applyDirective, hpv]
    · refine (postChecks_ok _).mpr ⟨?_, ?_, ?_⟩
      · simp [ambientCheck, hcond]
      · simp [bindingCheck]
      · simp [skipRemountCheck, hk]
  · intro p
    constructor
    · rw [happ (Directive.pivotD p)]
      simp [applyDirective, hc]
    · refine (postChecks_ok _).mpr ⟨?_, ?_, ?_⟩
      · simp [ambientCheck, hcond]
      · simp [bindingCheck]
      · simp [skipRemountCheck, hk]
  · constructor
    · rw [happ Directive.mountNsD]
      simp [applyDirective]
    · refine (postChecks_ok _).mpr ⟨?_, ?_, ?_⟩
      · simp [ambientCheck, hcond]
      · simp [bindingCheck]
      · simp [skipRemountCheck, hk]

/-- Witness for C5: the set {-b /a,/b} fails validation, and with -v
appended it passes. -/
theorem claim_C5_witness :
    postChecks { initSt with binding := true } = .error bindMsg
    ∧ parseLoop env0 initSt [Directive.bindD "/a,/b", Directive.mountNsD]
        = .ok { initSt with binding := true, mountNs := true, vfsNs := true }
    ∧ postChecks { initSt with binding := true, mountNs := true, vfsNs := true }
        = .ok () := by
  have h := claim_C5 env0 [Directive.bindD "/a,/b"] { initSt with binding := true }
    (by decide) (by decide) (by decide) (by decide) (by decide) (by decide) (by decide)
  exact ⟨h.1, h.2.2.2.1, h.2.2.2.2⟩

/-- Claim C4 counterexample: the directive set {-K, -P /new}.  The
pivot-root handler calls `minijail_namespace_vfs`, so a new mount namespace
is active in this set (the jail's vfs-namespace flag is set), yet the
validator rejects the skip-remount request: "skipping succeeds iff a mount
namespace is active in the set" is false on this input. -/
theorem claim_C4_counterexample :
    (parseLoop env0 initSt [Directive.skipRemountD, Directive.pivotD "/new"]).toOption.map
        St.vfsNs = some true
    ∧ pipeline env0 [Directive.skipRemountD, Directive.pivotD "/new"]
        = .error skipRemountMsg := by
  decide

/-- Claim C4 amended: requesting to skip the mark-mounts-private step
passes validation iff the explicit mount-namespace directive (-v) is in the
set; directives that merely activate a new mount namespace as a side
effect, such as pivot-root, do not satisfy the check (the check reads the
local `mount_ns` flag, which only -v sets). -/
theorem claim_C4_amended (env : Env) (ds : List Directive) (fl : St)
    (hpa : parseLoop env initSt ds = .ok fl)
    (hk : fl.skipRemount = true)
    (ha : ambientCheck fl = .ok ()) (hb : bindingCheck fl = .ok ()) :
    postChecks fl = .ok () ↔ ds.any isMountNsD = true := by
  obtain ⟨-, -, f3, -, -, -, -⟩ := parseLoop_flags env ds initSt fl hpa
  have hmn : fl.mountNs = ds.any isMountNsD := by
    rw [f3]; simp [initSt]
  rw [postChecks_ok]
  simp [ha, hb, skipRemountCheck_ok, hk, hmn]

/-- Witness for C4 (amended) at the concrete set {-K, -v}. -/
theorem claim_C4_witness :
    postChecks { initSt with skipRemount := true, mountNs := true, vfsNs := true }
      = .ok () := by
  have h := claim_C4_amended env0 [Directive.skipRemountD, Directive.mountNsD]
    { initSt with skipRemount := true, mountNs := true, vfsNs := true }
    (by decide) (by decide) (by decide) (by decide)
  exact h.mpr (by decide)

/-- Claim C3: when a uid map was requested (`-m`, which itself makes
`set_ugid_mapping` request the user namespace) and no explicit map argument
was supplied, the applied uid map is the synthesized default
`"<target-id> <caller-real-uid> 1"`; the chosen target id is `fl.uid`,
which stays at root (0) when no `-u` directive chose one. -/
theorem claim_C3 (env : Env) (ds : List Directive) (fl : St) (tr : List JailCall)
    (_hpa : parseLoop env initSt ds = .ok fl)
    (hm : fl.setUidmap = true) (hno : fl.uidmapArg = none)
    (hok : set_ugid_mapping env fl = .ok tr) :
    JailCall.namespaceUser ∈ tr
    ∧ JailCall.uidmapCall (idmapStr fl.uid env.callerUid) ∈ tr := by
  unfold set_ugid_mapping at hok
  cases hu : uidCalls env fl with
  | error e => rw [hu] at hok; cases hok
  | ok u =>
    rw [hu] at hok
    cases hg : gidCalls env fl with
    | error e => rw [hg] at hok; cases hok
    | ok g =>
      rw [hg] at hok
      injection hok with hok
      subst hok
      unfold uidCalls uidmapChoice at hu
      rw [hm, hno] at hu
      simp only [if_true] at hu
      cases hb : build_idmap fl.uid env.callerUid with
      | error e => rw [hb] at hu; cases hu
      | ok m =>
        rw [hb] at hu
        injection hu with hu
        subst hu
        have hms : m = idmapStr fl.uid env.callerUid := by
          unfold build_idmap at hb
          split at hb
          · cases hb
          · injection hb with h
            exact h.symm
        subst hms
        constructor <;> simp [List.mem_append]

/-- Witness for C3: bare `-m` with caller real uid 1000 and no chosen
target uid synthesizes the map "0 1000 1". -/
theorem claim_C3_witness :
    idmapStr 0 1000 = "0 1000 1"
    ∧ JailCall.uidmapCall "0 1000 1"
        ∈ [JailCall.namespaceUser, JailCall.namespacePids,
           JailCall.uidmapCall "0 1000 1"] := by
  refine ⟨by decide, ?_⟩
  have h := claim_C3 env0 [Directive.uidmapD none] { initSt with setUidmap := true }
    [JailCall.namespaceUser, JailCall.namespacePids, JailCall.uidmapCall "0 1000 1"]
    (by decide) (by decide) (by decide) (by decide)
  have h2 := h.2
  rw [show idmapStr ({ initSt with setUidmap := true } : St).uid env0.callerUid
      = "0 1000 1" from by decide] at h2
  exact h2

/-- Claim C7: whenever a gid map is applied, the configuration additionally
requests that setgroups be disabled exactly when the caller lacks effective
CAP_SETGID, and that request is issued before the gid map is set; when the
capability is held, no disable-setgroups call appears in the trace. -/
theorem claim_C7 (env : Env) (fl : St) (tr : List JailCall)
    (hg : fl.setGidmap = true)
    (hok : set_ugid_mapping env fl = .ok tr) :
    (env.capSetgid = false →
      ∃ t1 t2 t3 m, tr
        = t1 ++ JailCall.disableSetgroups :: (t2 ++ JailCall.gidmapCall m :: t3))
    ∧ (env.capSetgid = true → JailCall.disableSetgroups ∉ tr) := by
  unfold set_ugid_mapping at hok
  cases hu : uidCalls env fl with
  | error e => rw [hu] at hok; cases hok
  | ok u =>
    rw [hu] at hok
    cases hgc : gidCalls env fl with
    | error e => rw [hgc] at hok; cases hok
    | ok g =>
      rw [hgc] at hok
      injection hok with hok
      subst hok
      have hunodis : JailCall.disableSetgroups ∉ u := by
        unfold uidCalls at hu
        split at hu
        · cases hmc : uidmapChoice env fl with
          | error e => rw [hmc] at hu; cases hu
          | ok m => rw [hmc] at hu; injection hu with hu; subst hu; simp
        · injection hu with hu; subst hu; simp
      unfold gidCalls at hgc
      rw [hg] at hgc
      simp only [if_true] at hgc
      cases hmc : gidmapChoice env fl with
      | error e => rw [hmc] at hgc; cases hgc
      | ok m =>
        rw [hmc] at hgc
        injection hgc with hgc
        subst hgc
        constructor
        · intro hcap
          rw [hcap]
          exact ⟨u ++ [JailCall.namespaceUser, JailCall.namespacePids], [], [], m,
            by simp⟩
        · intro hcap
          rw [hcap]
          simp [List.mem_append, hunodis]

/-- Witness for C7: gid map requested by an unprivileged caller (fixture
`env0` has no CAP_SETGID); the trace contains a disable-setgroups call
followed by the gid-map call. -/
theorem claim_C7_witness :
    ∃ t1 t2 t3 m,
      ([JailCall.namespaceUser, JailCall.namespacePids, JailCall.disableSetgroups,
        JailCall.gidmapCall "0 1000 1"] : List JailCall)
        = t1 ++ JailCall.disableSetgroups :: (t2 ++ JailCall.gidmapCall m :: t3) := by
  have h := claim_C7 env0 { initSt with setGidmap := true }
    [JailCall.namespaceUser, JailCall.namespacePids, JailCall.disableSetgroups,
     JailCall.gidmapCall "0 1000 1"] (by decide) (by decide)
  exact h.1 (by decide)

/-- Claim C2: every validated configuration that requests capability
restriction, whose target resolves to Static linkage, and that did not
request ambient capabilities, is refused with the caps/static fatal error
rather than proceeding to any execution strategy. -/
theorem claim_C2 (env : Env) (ds : List Directive) (fl : St) (tr : List JailCall)
    (hpa : parseLoop env initSt ds = .ok fl)
    (hug : ugidStage env fl = .ok tr)
    (hpc : postChecks fl = .ok ())
    (hprog : env.hasProgram = true)
    (helf : resolveElf env fl = .ok .ELFSTATIC)
    (hc : fl.caps = true) (hna : fl.ambientCaps = false) :
    pipeline env ds = .error capsStaticMsg := by
  unfold pipeline
  rw [hpa]
  simp [hug, hpc, hprog, helf, capsStaticCheck, hc, hna]

/-- Witness for C2: `-c 1` alone with a statically linked target. -/
theorem claim_C2_witness :
    pipeline env0 [Directive.capsD "1"] = .error capsStaticMsg :=
  claim_C2 env0 [Directive.capsD "1"] { initSt with caps := true, capsVal := 1 } []
    (by decide) (by decide) (by decide) (by decide) (by decide) (by decide) (by decide)

/-- Claim C1 counterexample: for the directive set [-c 1, --ambient] with a
statically linked target the front end does NOT select the preload
strategy: `main` takes the `minijail_run_no_preload` branch for every
static target, so the claimed strategy PreloadExec is wrong. -/
theorem claim_C1_counterexample :
    pipeline env0 [Directive.capsD "1", Directive.ambientD]
      ≠ .ok Strategy.preloadExec := by
  decide

/-- The parse-loop output for the C1 scenario [-c 1, --ambient]. -/
def c1St : St :=
  { initSt with caps := true, capsVal := 1, ambientCaps := true, jailAmbient := true }

/-- Claim C1 amended: for the directive set [-c 1, --ambient] and Static
linkage the launch is not rejected — the ambient-capabilities request
disarms the caps/static refusal — and the selected strategy is DirectExec,
the direct no-preload path, in every environment where the static target is
present and accessible. -/
theorem claim_C1_amended (env : Env)
    (hprobe : env.probe = .ELFSTATIC) (hacc : env.accessOk = true)
    (hprog : env.hasProgram = true) :
    pipeline env [Directive.capsD "1", Directive.ambientD]
      = .ok Strategy.directExec := by
  have hpa : parseLoop env initSt [Directive.capsD "1", Directive.ambientD]
      = .ok c1St := rfl
  unfold pipeline
  rw [hpa]
  simp [c1St, ugidStage, postChecks, ambientCheck, bindingCheck, skipRemountCheck,
    resolveElf, hprobe, hacc, hprog, capsStaticCheck, selectStrategy, initSt]

/-- Witness for C1 (amended) in the concrete static-target fixture. -/
theorem claim_C1_witness :
    pipeline env0 [Directive.capsD "1", Directive.ambientD]
      = .ok Strategy.directExec :=
  claim_C1_amended env0 (by decide) (by decide) (by decide)

end Minijail
